import Mathlib

/-!
Shallow embedding of `src/tawhiri/wind/download.py` (the tawhiri wind dataset
downloader): the worker retry/backoff step, the session counters, the
`download` outcome logic, `close`, the open/init validation, the per-file
download effects, and the daemon cycle.
-/

namespace Tawhiri

/-- Default per-file timeout in seconds (`DatasetDownloader.__init__`, keyword
argument `timeout=120`). -/
def defaultTimeout : Nat := 120

/-- Default first-file timeout in seconds (`DatasetDownloader.__init__`,
keyword argument `first_file_timeout=600`). -/
def defaultFirstFileTimeout : Nat := 600

/-- The non-fatal outcomes of one download attempt, matching the `except`
arms of `DownloadWorker._run` (success is the `else` branch; the fatal
`GreenletExit`/`KeyboardInterrupt`/`SystemExit` arm re-raises and is not a
step of the loop). -/
inductive AttemptOutcome where
  | success
  | notFound
  | timeoutHit
  | otherError
deriving DecidableEq, Repr

/-- The observable result of one iteration of `DownloadWorker._run`:
the server-backoff exponent after the iteration, the seconds slept at the
end of the iteration (`sleep(server_sleep_time)`), the `not_before` value of
the re-enqueued request if the file was put back on the queue, and whether
`downloader._file_complete()` was called. -/
structure WorkerStep where
  backoff : Nat
  serverSleep : Nat
  reenqueue : Option Int
  fileCompleted : Bool
deriving DecidableEq, Repr

/-- The `server_sleep_backoff` update of the `except Timeout` arm of
`DownloadWorker._run` (lines 345–355): first
`server_sleep_backoff = max(server_sleep_backoff, int(math.log(timeout, 2) + 1))`,
then `log_to = int(math.ceil(math.log(timeout, 2)))` and a bump to
`log_to + 1` if still below it.  `int(math.log(t, 2) + 1)` is
`Nat.log2 t + 1` and `int(math.ceil(math.log(t, 2)))` is `Nat.clog 2 t`
(exact-arithmetic reading of the float expressions). -/
def timeoutBackoff (cur t : Nat) : Nat :=
  if max cur (Nat.log2 t + 1) < Nat.clog 2 t + 1 then Nat.clog 2 t + 1
  else max cur (Nat.log2 t + 1)

/-- One iteration of the `try`/`except`/`else` dispatch of
`DownloadWorker._run` (lines 327–386), given the worker's
`server_sleep_backoff` before the attempt, the session's `have_first_file`
flag, the configured timeouts, the current wall-clock time (`time()`), and
the attempt's outcome. -/
def workerStep (curBackoff : Nat) (haveFirstFile : Bool)
    (timeout firstFileTimeout : Nat) (now : Int) (o : AttemptOutcome) :
    WorkerStep :=
  match o with
  | .success => ⟨0, 0, none, true⟩
  | .notFound =>
      let sleepTime : Nat := if haveFirstFile then timeout else firstFileTimeout
      ⟨curBackoff, 0, some (now + (sleepTime : Int)), false⟩
  | .timeoutHit =>
      let b := timeoutBackoff curBackoff timeout
      ⟨b, 2 ^ b, some 0, false⟩
  | .otherError =>
      let b := if curBackoff < 10 then curBackoff + 1 else curBackoff
      ⟨b, 2 ^ b, some 0, false⟩

lemma timeoutBackoff_eq (cur t : Nat) :
    timeoutBackoff cur t = max cur (Nat.clog 2 t + 1) := by
  have h : Nat.log2 t ≤ Nat.clog 2 t := by
    rw [Nat.log2_eq_log_two]; exact Nat.log_le_clog 2 t
  unfold timeoutBackoff
  split_ifs with h1 <;> omega

lemma clog_two_defaultTimeout : Nat.clog 2 defaultTimeout = 7 := by
  have h1 : Nat.clog 2 120 ≤ 7 :=
    (Nat.le_pow_iff_clog_le (by norm_num)).1 (by norm_num)
  have h2 : 6 < Nat.clog 2 120 :=
    (Nat.pow_lt_iff_lt_clog (by norm_num)).1 (by norm_num)
  unfold defaultTimeout
  omega

/-- Claim C4: a worker attempt failing with the per-file `Timeout`
re-enqueues the file with `not_before = 0` and then sleeps `2^k` seconds,
`k = max(current_backoff, ⌈log2 timeout⌉ + 1)`; for the default 120 s
timeout the sleep is at least `2^8 = 256` seconds. -/
theorem worker_timeout_step (curBackoff : Nat) (haveFirstFile : Bool)
    (timeout firstFileTimeout : Nat) (now : Int) :
    workerStep curBackoff haveFirstFile timeout firstFileTimeout now
        .timeoutHit =
      ⟨max curBackoff (Nat.clog 2 timeout + 1),
       2 ^ max curBackoff (Nat.clog 2 timeout + 1), some 0, false⟩ ∧
    256 ≤ 2 ^ max curBackoff (Nat.clog 2 defaultTimeout + 1) := by
  constructor
  · simp only [workerStep, timeoutBackoff_eq]
  · calc (256 : Nat) = 2 ^ 8 := by norm_num
      _ ≤ 2 ^ max curBackoff (Nat.clog 2 defaultTimeout + 1) := by
          apply Nat.pow_le_pow_right (by norm_num)
          rw [clog_two_defaultTimeout]
          omega

/-- Claim C5: a worker attempt failing with 404 `NotFound` re-enqueues the
file with `not_before = now + timeout` when `have_first_file` is already
true and `not_before = now + first_file_timeout` (default 600 s) otherwise;
the server sleep is 0 and the backoff exponent is unchanged. -/
theorem worker_notfound_step (curBackoff : Nat) (haveFirstFile : Bool)
    (timeout firstFileTimeout : Nat) (now : Int) :
    workerStep curBackoff haveFirstFile timeout firstFileTimeout now
        .notFound =
      ⟨curBackoff, 0,
       some (now + (if haveFirstFile then (timeout : Int)
                    else (firstFileTimeout : Int))), false⟩ ∧
    defaultFirstFileTimeout = 600 := by
  refine ⟨?_, rfl⟩
  cases haveFirstFile <;> rfl

/-- The progress counters of a `DatasetDownloader` session: how many
requests sit in the `_files` priority queue, how many are being fetched by a
worker, the `files_complete` counter, and whether the `completed` event has
been set. -/
structure SessionCounters where
  pending : Nat
  inflight : Nat
  filesComplete : Nat
  completedSet : Bool
deriving DecidableEq, Repr

/-- The counters right after `_add_files` seeded the queue with
`files_count` requests: all pending, none in flight, `files_complete = 0`,
event not set (`__init__` lines 87–89). -/
def initCounters (filesCount : Nat) : SessionCounters :=
  ⟨filesCount, 0, 0, false⟩

/-- The counter-visible events of a session.  `take` is a worker dequeuing a
request (`_files.get`); `requeue` is a failed attempt putting the request
back (`_files.put` in the 404/Timeout/other arms); `complete` is the
success arm calling `_file_complete` (lines 224–229): `files_complete += 1`
and the event is set when the new count equals `files_count`.  A completed
file is never put back. -/
inductive SessionStep (filesCount : Nat) :
    SessionCounters → SessionCounters → Prop where
  | take (p i c e) :
      SessionStep filesCount ⟨p + 1, i, c, e⟩ ⟨p, i + 1, c, e⟩
  | requeue (p i c e) :
      SessionStep filesCount ⟨p, i + 1, c, e⟩ ⟨p + 1, i, c, e⟩
  | complete (p i c e) :
      SessionStep filesCount ⟨p, i + 1, c, e⟩
        ⟨p, i, c + 1, if c + 1 = filesCount then true else e⟩

/-- Counters reachable from the freshly-seeded session by worker events. -/
def SessionReachable (filesCount : Nat) (s : SessionCounters) : Prop :=
  Relation.ReflTransGen (SessionStep filesCount) (initCounters filesCount) s

lemma sessionInvariant (fc : Nat) (hfc : 0 < fc) (s : SessionCounters)
    (h : SessionReachable fc s) :
    s.pending + s.inflight + s.filesComplete = fc ∧
      (s.completedSet = true ↔ s.filesComplete = fc) := by
  induction h with
  | refl =>
      refine ⟨by simp [initCounters], ?_⟩
      simp only [initCounters]
      constructor
      · intro h'; simp at h'
      · intro h'; omega
  | tail hsteps hstep ih =>
      cases hstep with
      | take p i c e =>
          obtain ⟨hsum, hiff⟩ := ih
          exact ⟨by simp_all; omega, by simp_all⟩
      | requeue p i c e =>
          obtain ⟨hsum, hiff⟩ := ih
          exact ⟨by simp_all; omega, by simp_all⟩
      | complete p i c e =>
          obtain ⟨hsum, hiff⟩ := ih
          have hsum' : p + (i + 1) + c = fc := hsum
          have hiff' : e = true ↔ c = fc := hiff
          refine ⟨?_, ?_⟩
          · show p + i + (c + 1) = fc
            omega
          · show (if c + 1 = fc then true else e) = true ↔ c + 1 = fc
            by_cases hc : c + 1 = fc
            · simp [hc]
            · simp only [hc, if_false]
              constructor
              · intro he
                have hcfc := hiff'.1 he
                omega
              · intro h'
                exact h'.elim

/-- Claim C6: across a session, `files_complete` moves only upward and by
exactly 1 per completed file; it never exceeds `files_count`, and the
completion event is set iff `files_complete` has reached `files_count`. -/
theorem files_complete_invariant :
    (∀ fc s s', SessionStep fc s s' →
        s.filesComplete ≤ s'.filesComplete ∧
          s'.filesComplete ≤ s.filesComplete + 1) ∧
    (∀ fc s, 0 < fc → SessionReachable fc s →
        s.filesComplete ≤ fc ∧
          (s.completedSet = true ↔ s.filesComplete = fc)) := by
  constructor
  · intro fc s s' hstep
    cases hstep <;> simp
  · intro fc s hfc hreach
    obtain ⟨hsum, hiff⟩ := sessionInvariant fc hfc s hreach
    exact ⟨by omega, hiff⟩

/-- Witness for C6 at concrete inputs: one `complete` step from
`⟨1, 1, 0, false⟩` with `files_count = 2`, and the invariant at the initial
counters for `files_count = 2`. -/
theorem files_complete_invariant_witness :
    ((0 : Nat) ≤ 1 ∧ (1 : Nat) ≤ 0 + 1) ∧
      ((initCounters 2).filesComplete ≤ 2 ∧
        ((initCounters 2).completedSet = true ↔
          (initCounters 2).filesComplete = 2)) :=
  ⟨files_complete_invariant.1 2 ⟨1, 1, 0, false⟩ _
      (SessionStep.complete 1 0 0 false),
   files_complete_invariant.2 2 (initCounters 2) (by decide)
      Relation.ReflTransGen.refl⟩

/-- The errors `DatasetDownloader.download` can end in:
`ValueError("Deadline already passed")`, `ValueError("timed out")`,
`ValueError("incomplete: records missing")`, or a worker exception
re-raised out of `_run_workers` via `link()`. -/
inductive DlError where
  | deadlinePassed
  | timedOut
  | incomplete
  | workerException
deriving DecidableEq, Repr

/-- The state `DatasetDownloader.download` mutates: how many `FileRequest`s
have been seeded into the queue (`files_count`), how many workers have been
spawned, and the `success` flag. -/
structure DlState where
  queuedFiles : Nat
  workersSpawned : Nat
  success : Bool
deriving DecidableEq, Repr

/-- The downloader state as left by `__init__` (lines 87–90):
nothing queued, no workers, `success = False`. -/
def initDlState : DlState := ⟨0, 0, false⟩

/-- The environment one `download` call runs against: the number of
resolved mirror addresses, whether a worker exception surfaces in
`completed.wait`, the state of the `completed` event after the wait, and
`checklist.all()` after teardown. -/
structure RunEnv where
  addresses : Nat
  workerRaises : Bool
  completedSet : Bool
  checklistAll : Bool
deriving DecidableEq, Repr

/-- `DatasetDownloader._add_files` (lines 153–161): two filenames per hour
of the dataset hour-axis, each bumping `files_count` and entering the
queue.  The hour axis lives in the external `Dataset` contract, so it is a
parameter here. -/
def addFiles (hours : List Nat) (s : DlState) : DlState :=
  { s with queuedFiles := s.queuedFiles + 2 * hours.length }

/-- The spawning part of `_run_workers` (lines 170–175): one
`DownloadWorker` per resolved address. -/
def runWorkersSpawn (addresses : Nat) (s : DlState) : DlState :=
  { s with workersSpawned := s.workersSpawned + addresses }

/-- `DatasetDownloader.download` (lines 126–151): check the deadline, seed
the queue, spawn workers and wait (teardown is unconditional in
`_run_workers`' `finally`), then translate the completion event and the
checklist into the outcome.  Returns the state after the call together
with the raised error, if any. -/
def download (hours : List Nat) (totalTimeoutSecs : Int) (env : RunEnv)
    (s : DlState) : DlState × Option DlError :=
  if totalTimeoutSecs < 0 then
    (s, some .deadlinePassed)
  else
    let s1 := runWorkersSpawn env.addresses (addFiles hours s)
    if env.workerRaises then (s1, some .workerException)
    else if env.completedSet = false then (s1, some .timedOut)
    else if env.checklistAll = false then (s1, some .incomplete)
    else ({ s1 with success := true }, none)

/-- Claim C3: `download` sets `success = true` only when the completion
event is set and `checklist.all()` holds; when the wait returns without a
worker exception it fails as timed-out whenever the event is unset,
otherwise as incomplete whenever the checklist is not full, and only
otherwise sets `success = true` without error. -/
theorem download_outcome (hours : List Nat) (tts : Int) (env : RunEnv)
    (s : DlState) (hs : s.success = false) :
    ((download hours tts env s).1.success = true →
        env.completedSet = true ∧ env.checklistAll = true) ∧
    (0 ≤ tts → env.workerRaises = false →
      ((env.completedSet = false →
          (download hours tts env s).2 = some .timedOut) ∧
       (env.completedSet = true → env.checklistAll = false →
          (download hours tts env s).2 = some .incomplete) ∧
       (env.completedSet = true → env.checklistAll = true →
          (download hours tts env s).2 = none ∧
            (download hours tts env s).1.success = true))) := by
  obtain ⟨a, wr, cs, ca⟩ := env
  obtain ⟨qf, ws, su⟩ := s
  by_cases ht : tts < 0
  · refine ⟨?_, ?_⟩
    · intro hsucc
      simp_all [download, ht]
    · intro h0
      exact absurd ht (by omega)
  · cases wr <;> cases cs <;> cases ca <;>
      simp_all [download, runWorkersSpawn, addFiles] <;>
        simp [if_neg (show ¬tts < 0 by omega)]

/-- Witness for C3 at a concrete input: an in-time session whose event is
set and whose checklist is full succeeds with no error. -/
theorem download_outcome_witness :
    (download [0] 0 ⟨2, false, true, true⟩ initDlState).2 = none ∧
      (download [0] 0 ⟨2, false, true, true⟩ initDlState).1.success =
        true :=
  ((download_outcome [0] 0 ⟨2, false, true, true⟩ initDlState rfl).2
      (by decide) rfl).2.2 rfl rfl

/-- Claim C7: when the deadline has already passed (`deadline − now`
negative), `download` raises immediately and leaves the state untouched —
no `FileRequest` is seeded and no worker is spawned. -/
theorem download_deadline_passed (hours : List Nat) (tts : Int)
    (env : RunEnv) (s : DlState) (h : tts < 0) :
    download hours tts env s = (s, some .deadlinePassed) ∧
      (download hours tts env s).1.queuedFiles = s.queuedFiles ∧
      (download hours tts env s).1.workersSpawned = s.workersSpawned := by
  refine ⟨?_, ?_, ?_⟩ <;> simp [download, h]

/-- Witness for C7 at a concrete input: deadline one second in the past. -/
theorem download_deadline_passed_witness :
    download [0] (-1) ⟨1, false, false, false⟩ initDlState =
        (initDlState, some DlError.deadlinePassed) ∧
      (download [0] (-1) ⟨1, false, false, false⟩
          initDlState).1.queuedFiles = initDlState.queuedFiles ∧
      (download [0] (-1) ⟨1, false, false, false⟩
          initDlState).1.workersSpawned = initDlState.workersSpawned :=
  download_deadline_passed [0] (-1) ⟨1, false, false, false⟩ initDlState
    (by decide)

/-- The fields of `DatasetDownloader` that `close` consults — whether
`_dataset`, `_gribmirror` and `_tmp_directory` are not `None`, how many
stray files the temporary directory holds, and the `success` flag. -/
structure CloseState where
  dataset : Bool
  gribmirror : Bool
  tmpDirectory : Bool
  strayFiles : Nat
  success : Bool
deriving DecidableEq, Repr

/-- The filesystem and writer effects `close` can perform. -/
inductive FsEffect where
  | closeDatasetWriter
  | moveDataset
  | deleteDataset
  | closeGribmirror
  | moveGribmirror
  | deleteGribmirror
  | unlinkStray
  | removeTmpDir
deriving DecidableEq, Repr

/-- `DatasetDownloader.close` (lines 235–264): with `move_files` defaulting
to `self.success`, close and move-or-delete the dataset writer if present,
then the gribmirror if present, then unlink strays and remove the
temporary directory if present; every handled field is set back to `None`.
Returns the new state and the list of effects performed, in order. -/
def close (s : CloseState) (moveFiles : Option Bool) :
    CloseState × List FsEffect :=
  ({ dataset := false, gribmirror := false, tmpDirectory := false,
     strayFiles := if s.tmpDirectory then 0 else s.strayFiles,
     success := s.success },
   (if s.dataset then
      [FsEffect.closeDatasetWriter,
       if moveFiles.getD s.success then FsEffect.moveDataset
       else FsEffect.deleteDataset]
    else [])
   ++ (if s.gribmirror then
      [FsEffect.closeGribmirror,
       if moveFiles.getD s.success then FsEffect.moveGribmirror
       else FsEffect.deleteGribmirror]
    else [])
   ++ (if s.tmpDirectory then
      List.replicate s.strayFiles FsEffect.unlinkStray
        ++ [FsEffect.removeTmpDir]
    else []))

/-- Claim C8: `close` is idempotent — once `close` has run, any further
call performs no filesystem effect and no writer close, and leaves the
state unchanged, whatever `move_files` arguments are used. -/
theorem close_idempotent (s : CloseState) (mf mf' : Option Bool) :
    (close (close s mf).1 mf').2 = [] ∧
      (close (close s mf).1 mf').1 = (close s mf).1 := by
  obtain ⟨d, g, t, st, su⟩ := s
  simp [close]

/-- The output configuration a `DatasetDownloader` is constructed with. -/
structure DownloaderConfig where
  writeDataset : Bool
  writeGribmirror : Bool
deriving DecidableEq, Repr

/-- The `ValueError` of `DatasetDownloader.__init__` (lines 65–67) when
neither `write_dataset` nor `write_gribmirror` is requested. -/
inductive InitError where
  | bothOutputsDisabled
deriving DecidableEq, Repr

/-- The creations `DatasetDownloader.open` performs (lines 107–124). -/
inductive OpenEffect where
  | createTmpDirectory
  | createDatasetWriter
  | openGribmirrorFile
deriving DecidableEq, Repr

/-- The validation of `DatasetDownloader.__init__` (lines 65–67): raise
unless at least one output is requested. -/
def datasetDownloaderInit (wd wg : Bool) :
    Except InitError DownloaderConfig :=
  if !(wd || wg) then .error .bothOutputsDisabled
  else .ok ⟨wd, wg⟩

/-- `DatasetDownloader.open` (lines 107–124): make the temporary directory,
then the `Dataset` writer if requested, then the gribmirror file if
requested. -/
def openDownloader (c : DownloaderConfig) : List OpenEffect :=
  [OpenEffect.createTmpDirectory]
    ++ (if c.writeDataset then [OpenEffect.createDatasetWriter] else [])
    ++ (if c.writeGribmirror then [OpenEffect.openGribmirrorFile] else [])

/-- Constructing a session and opening it: the effects that happen and the
error raised, if any.  Construction failure means `open` never runs. -/
def openSession (wd wg : Bool) : List OpenEffect × Option InitError :=
  match datasetDownloaderInit wd wg with
  | .error e => ([], some e)
  | .ok c => (openDownloader c, none)

/-- Claim C9: a session with both outputs disabled raises before any
temporary directory, `Dataset` writer or gribmirror file is created. -/
theorem open_refuses_no_outputs :
    openSession false false = ([], some InitError.bothOutputsDisabled) := by
  rfl

/-- What one call of `DownloadWorker._download_file` does to the
filesystem and the HTTP connection (lines 397–445), in order. -/
inductive FileEffect where
  | connect
  | request
  | getResponse
  | openTempFile
  | writeChunk
  | unpackGrib
  | unlinkTempFile
deriving DecidableEq, Repr

/-- The exceptions `_download_file` can propagate. -/
inductive FileError where
  | notFound
  | badStatus (status : Nat)
  | openError
  | readError
  | unpackError
deriving DecidableEq, Repr

/-- `DownloadWorker._download_file` (lines 397–445): request the file, raise
`NotFound` on 404 and a generic error on any other non-200 status; then
open the temp file (`opened` becomes true only on success of the open),
stream the body into it, and unpack it on clean read; the `finally` block
unlinks the temp file whenever `opened` is true, whether the body raised or
not.  The environment flags say whether the open, the streaming read and
the unpack succeed. -/
def downloadFile (status : Nat) (openOk readOk unpackOk : Bool) :
    List FileEffect × Option FileError :=
  let pre := [FileEffect.connect, FileEffect.request, FileEffect.getResponse]
  if status = 404 then (pre, some .notFound)
  else if status ≠ 200 then (pre, some (.badStatus status))
  else if !openOk then (pre, some .openError)
  else if !readOk then
    (pre ++ [FileEffect.openTempFile, FileEffect.writeChunk,
             FileEffect.unlinkTempFile], some .readError)
  else if !unpackOk then
    (pre ++ [FileEffect.openTempFile, FileEffect.writeChunk,
             FileEffect.unpackGrib, FileEffect.unlinkTempFile],
     some .unpackError)
  else
    (pre ++ [FileEffect.openTempFile, FileEffect.writeChunk,
             FileEffect.unpackGrib, FileEffect.unlinkTempFile], none)

/-- Claim C10: every `_download_file` call that managed to open the
per-file temp file unlinks it as its very last effect, whether it returns
normally or propagates an exception (mid-read break, unpack failure). -/
theorem download_file_unlinks_temp (status : Nat)
    (openOk readOk unpackOk : Bool)
    (h : FileEffect.openTempFile ∈
        (downloadFile status openOk readOk unpackOk).1) :
    (downloadFile status openOk readOk unpackOk).1.getLast? =
      some FileEffect.unlinkTempFile := by
  unfold downloadFile at h ⊢
  split_ifs at h ⊢ <;> simp_all

/-- Witness for C10 at a concrete input: a 200 response whose unpack step
fails still ends with the unlink of the temp file. -/
theorem download_file_unlinks_temp_witness :
    (downloadFile 200 true true false).1.getLast? =
      some FileEffect.unlinkTempFile :=
  download_file_unlinks_temp 200 true true false (by decide)

/-- `expect = next_dataset + timedelta(hours=3, minutes=30)` of
`DownloadDaemon.run` (line 491), in seconds. -/
def expectTime (target : Int) : Int := target + (3 * 3600 + 30 * 60)

/-- `wait_for = (datetime.now() - expect).total_seconds()` of
`DownloadDaemon.run` (line 492). -/
def daemonWaitFor (now expect : Int) : Int := now - expect

/-- The seconds `DownloadDaemon.run` actually sleeps before a cycle
(lines 492–496): `sleep(wait_for)` only when `wait_for > 0`. -/
def daemonSleepSeconds (now expect : Int) : Int :=
  if daemonWaitFor now expect > 0 then daemonWaitFor now expect else 0

/-- The sleep claimed by the spec ("Sleep until `target + 3 h 30 min`"):
the remaining `expect − now` when that instant is still in the future, and
nothing otherwise.  Stated for comparison against `daemonSleepSeconds`. -/
def claimedDaemonSleepSeconds (now expect : Int) : Int :=
  if expect - now > 0 then expect - now else 0

/-- Claim C1 is violated: the code computes `wait_for = now − expect`, the
reverse of the remaining time.  With `expect = expectTime target` 100 s in
the future the daemon does not sleep at all (the claim demands a 100 s
sleep), and with `expect` 200 s in the past the daemon sleeps 200 s (the
claim demands no sleep). -/
theorem daemon_sleep_direction_bug :
    daemonSleepSeconds 0 (expectTime (-12500)) = 0 ∧
      claimedDaemonSleepSeconds 0 (expectTime (-12500)) = 100 ∧
      daemonSleepSeconds 300 (expectTime (-12500)) = 200 ∧
      claimedDaemonSleepSeconds 300 (expectTime (-12500)) = 0 := by
  decide

/-- How one `DatasetDownloader` session invoked by the daemon ends:
successfully, with a non-fatal exception, or with a fatal
`GreenletExit`/`KeyboardInterrupt`/`SystemExit`. -/
inductive SessionOutcome where
  | success
  | failure
  | fatal
deriving DecidableEq, Repr

/-- What can propagate out of a daemon cycle. -/
inductive DaemonError where
  | fatal
  | assertionFailed
deriving DecidableEq, Repr

/-- `DownloadDaemon._download` (lines 512–524): fatal exceptions are
re-raised; any other exception is caught and logged.  Returns whether the
dataset was downloaded (and hence published by `close`). -/
def daemonDownload (o : SessionOutcome) : Except DaemonError Bool :=
  match o with
  | .success => .ok true
  | .failure => .ok false
  | .fatal => .error .fatal

/-- `clean_directory`'s return value (lines 453–476): the newest dataset
time present in the directory, which is also the newest kept row. -/
def cleanLatest (datasets : List Int) : Option Int := datasets.max?

/-- One iteration of the body of `DownloadDaemon.run` after the sleep
(lines 498–502): `_download(next_dataset)`, then
`assert next_dataset == self.clean_directory()`, then
`next_dataset += timedelta(hours=6)`.  `datasets` is the list of dataset
times in the directory (a successful session publishes `next`); times are
in seconds.  Returns the directory contents and the next target, or the
exception that escapes `run`. -/
def daemonCycle (datasets : List Int) (next : Int) (o : SessionOutcome) :
    Except DaemonError (List Int × Int) :=
  match daemonDownload o with
  | .error e => .error e
  | .ok published =>
      let datasets' := if published then datasets ++ [next] else datasets
      if cleanLatest datasets' = some next then
        .ok (datasets', next + 6 * 3600)
      else .error .assertionFailed

/-- Claim C2 is violated on the failure path: `_download` does catch and
log a non-fatal session failure (first conjunct), but `run` then executes
`assert next_dataset == self.clean_directory()`, which fails because the
failed dataset was never published, so an `AssertionError` escapes `run`
instead of the daemon continuing with the target advanced by 6 hours
(second conjunct); only a successful cycle advances the target (third
conjunct). -/
theorem daemon_failure_crashes_run :
    daemonDownload .failure = .ok false ∧
      daemonCycle [0] 21600 .failure = .error .assertionFailed ∧
      daemonCycle [0] 21600 .success = .ok ([0, 21600], 43200) :=
  ⟨rfl, rfl, rfl⟩

end Tawhiri
